import Mathlib

/-!
Verification of the session/template/storage core of the `echo_ink_agent`
repository (files `templates.py`, `session_storage.py`,
`echo_ink_orchestrator.py`), shallowly embedded in Lean.

Conventions of the embedding:
* Python dicts with string keys/values become association lists with
  Python insertion semantics (`dictInsert` replaces in place, else appends).
* A template `structure` string with `{placeholder}` holes becomes a list of
  `SkeletonPart`s (literal segments and placeholder names); `str.format`
  becomes `formatSkeleton`, returning `none` where Python raises `KeyError`.
* `datetime.now()` becomes an explicit timestamp argument (ISO strings are
  kept as opaque `String`s, exactly as the code compares them).
* The external AgentCore memory client is the event-log collaborator: the
  per-key log is an append-ordered list; record serialization is modelled as
  a tagged payload (the `SESSION_DATA: ` / `SESSION_DELETED: ` prefixes of
  the code become the two constructors of `Payload`, and JSON round-tripping
  is assumed as the spec requires of the collaborator).
-/

set_option autoImplicit false

namespace EchoInk

/-- Association-list model of a Python `dict[str, str]`. -/
abbrev Dict := List (String × String)

/-- Python read `d[k]` as a total lookup: first binding whose key equals `k`. -/
def dictLookup (d : Dict) (k : String) : Option String :=
  match d with
  | [] => none
  | (k', v) :: rest => if k' = k then some v else dictLookup rest k

/-- Python `k in d`. -/
def dictContains (d : Dict) (k : String) : Bool :=
  (dictLookup d k).isSome

/-- Python `d[k] = v`: replace the binding in place if the key is present,
otherwise append the new binding at the end (dict insertion order). -/
def dictInsert (d : Dict) (k v : String) : Dict :=
  match d with
  | [] => [(k, v)]
  | (k', v') :: rest => if k' = k then (k', v) :: rest else (k', v') :: dictInsert rest k v

@[simp] theorem dictLookup_nil (k : String) : dictLookup [] k = none := rfl

theorem dictLookup_insert_self (d : Dict) (k v : String) :
    dictLookup (dictInsert d k v) k = some v := by
  induction d with
  | nil => simp [dictInsert, dictLookup]
  | cons p rest ih =>
      obtain ⟨k', v'⟩ := p
      by_cases h : k' = k
      · simp [dictInsert, dictLookup, h]
      · simp [dictInsert, dictLookup, h, ih]

theorem dictLookup_insert_ne (d : Dict) (k k' v : String) (h : k' ≠ k) :
    dictLookup (dictInsert d k' v) k = dictLookup d k := by
  induction d with
  | nil => simp [dictInsert, dictLookup, h]
  | cons p rest ih =>
      obtain ⟨k₀, v₀⟩ := p
      by_cases h0 : k₀ = k'
      · subst h0
        simp [dictInsert, dictLookup, h]
      · simp only [dictInsert, if_neg h0]
        by_cases h1 : k₀ = k
        · simp [dictLookup, h1]
        · simp [dictLookup, h1, ih]

theorem dictContains_insert (d : Dict) (k k' v : String) :
    dictContains (dictInsert d k' v) k = (k' = k ∨ dictContains d k = true) := by
  by_cases h : k' = k
  · subst h
    simp [dictContains, dictLookup_insert_self]
  · simp [dictContains, dictLookup_insert_ne d k k' v h, h]

/-- Keys of a dict, in order. -/
def dictKeys (d : Dict) : List String := d.map Prod.fst

theorem dictLookup_isSome_iff_mem_keys (d : Dict) (k : String) :
    (dictLookup d k).isSome = true ↔ k ∈ dictKeys d := by
  induction d with
  | nil => simp [dictKeys]
  | cons p rest ih =>
      obtain ⟨k', v'⟩ := p
      by_cases h : k' = k
      · simp [dictLookup, dictKeys, h]
      · simp [dictLookup, dictKeys, h, ih, Ne.symm h]

/-! ### Python string helpers

`field.replace('_', ' ').title()` from the source, modelled character by
character: `_` becomes a space, and a character is upper-cased exactly when
the previous character was not alphabetic (Python title-casing restarted at
every non-cased character; all field names in this repository are ASCII
identifiers, for which this model is exact). -/

def pyTitleReplChars : Bool → List Char → List Char
  | _, [] => []
  | prevAlpha, c :: cs =>
    if c = '_' then ' ' :: pyTitleReplChars false cs
    else (if prevAlpha then c.toLower else c.toUpper) :: pyTitleReplChars c.isAlpha cs

/-- Model of Python `f.replace` of underscores by spaces followed by `.title`. -/
def fieldTitle (f : String) : String :=
  String.mk (pyTitleReplChars false f.data)

/-- Python `s.title()` (no underscore replacement), used on the cleaned
document type in `generate_filename`. -/
def pyTitle (s : String) : String :=
  String.mk ((fun r => r) (pyTitleReplChars false s.data))

/-! ### Templates (`templates.py`)

A template `structure` string is embedded as the list of its literal
segments and `{placeholder}` holes, in order. -/

inductive SkeletonPart where
  | lit (s : String)
  | ph (name : String)
  deriving DecidableEq, Repr

/-- One entry of the `TEMPLATES` registry. The Python `structure` key is
called `skeleton` here (`structure` is a Lean keyword). -/
structure Template where
  name : String
  description : String
  skeleton : List SkeletonPart
  required_fields : List String
  optional_fields : List String
  deriving DecidableEq, Repr

/-- Python `structure.format(**m)`: substitute every placeholder from `m`,
`none` when a referenced placeholder is absent (Python raises `KeyError`). -/
def formatSkeleton (parts : List SkeletonPart) (m : Dict) : Option String :=
  match parts with
  | [] => some ""
  | .lit s :: rest => (formatSkeleton rest m).map (fun r => s ++ r)
  | .ph n :: rest =>
      match dictLookup m n with
      | none => none
      | some v => (formatSkeleton rest m).map (fun r => v ++ r)

/-- The placeholder names referenced by a skeleton, in order. -/
def placeholdersOf (parts : List SkeletonPart) : List String :=
  parts.filterMap (fun p => match p with | .lit _ => none | .ph n => some n)

@[simp] theorem placeholdersOf_nil : placeholdersOf [] = [] := rfl

@[simp] theorem placeholdersOf_lit (s : String) (rest : List SkeletonPart) :
    placeholdersOf (.lit s :: rest) = placeholdersOf rest := by
  simp [placeholdersOf]

@[simp] theorem placeholdersOf_ph (n : String) (rest : List SkeletonPart) :
    placeholdersOf (.ph n :: rest) = n :: placeholdersOf rest := by
  simp [placeholdersOf]

theorem formatSkeleton_isSome (parts : List SkeletonPart) (m : Dict)
    (h : ∀ p ∈ placeholdersOf parts, (dictLookup m p).isSome = true) :
    (formatSkeleton parts m).isSome = true := by
  induction parts with
  | nil => simp [formatSkeleton]
  | cons p rest ih =>
      cases p with
      | lit s =>
          have hrest := ih (fun q hq => h q (by simpa using hq))
          obtain ⟨r, hr⟩ := Option.isSome_iff_exists.mp hrest
          simp [formatSkeleton, hr]
      | ph n =>
          have hn : (dictLookup m n).isSome = true := h n (by simp)
          obtain ⟨v, hv⟩ := Option.isSome_iff_exists.mp hn
          have hrest := ih (fun q hq => h q (by simp [hq]))
          obtain ⟨r, hr⟩ := Option.isSome_iff_exists.mp hrest
          simp [formatSkeleton, hv, hr]

/-! ### The `TEMPLATES` registry, transcribed entry by entry from
`templates.py`. Each Python `structure` string is split into its literal
segments and placeholder holes, in order. -/

def syllabusTemplate : Template where
  name := "Course Syllabus"
  description := "Comprehensive course overview and structure"
  skeleton :=
    [.lit "# ", .ph "course_code", .lit " - ", .ph "title",
     .lit "\n\n**Instructor:** ", .ph "instructor_name",
     .lit "\n**Semester:** ", .ph "semester",
     .lit "\n**Credits:** ", .ph "credits",
     .lit "\n\n## Course Description\n", .ph "description",
     .lit "\n\n## Learning Objectives\n", .ph "objectives",
     .lit "\n\n## Course Modules\n", .ph "modules",
     .lit "\n\n## Assessment\n", .ph "assessment",
     .lit "\n\n## Schedule\n", .ph "schedule",
     .lit "\n\n## Course Policies\n", .ph "policies",
     .lit "\n"]
  required_fields := ["instructor_name", "semester", "credits", "description"]
  optional_fields := ["objectives", "modules", "assessment", "schedule", "policies"]

def examTemplate : Template where
  name := "Sample Exam"
  description := "Comprehensive exam with multiple sections"
  skeleton :=
    [.lit "# ", .ph "course_code", .lit " - ", .ph "title",
     .lit "\n\n**Course:** ", .ph "course_title",
     .lit "\n**Exam:** ", .ph "exam_type",
     .lit "\n**Date:** ", .ph "exam_date",
     .lit "\n**Duration:** ", .ph "duration",
     .lit "\n**Total Points:** ", .ph "total_points",
     .lit "\n\n## Instructions\n", .ph "instructions",
     .lit "\n\n## Section A: Multiple Choice (", .ph "mc_points",
     .lit " points)\n*Choose the best answer for each question.*\n\n", .ph "multiple_choice_questions",
     .lit "\n\n## Section B: Short Answer (", .ph "sa_points",
     .lit " points)\n*Provide brief, clear answers.*\n\n", .ph "short_answer_questions",
     .lit "\n\n## Section C: Problem Solving (", .ph "ps_points",
     .lit " points)\n*Show all work and explain your reasoning.*\n\n", .ph "problem_solving_questions",
     .lit "\n\n## Answer Key\n*For instructor use*\n\n", .ph "answer_key",
     .lit "\n"]
  required_fields := ["course_title", "exam_type", "duration", "total_points"]
  optional_fields := ["exam_date", "instructions", "mc_points", "sa_points", "ps_points",
                      "multiple_choice_questions", "short_answer_questions",
                      "problem_solving_questions", "answer_key"]

def assignmentTemplate : Template where
  name := "Assignment"
  description := "Homework or project assignment"
  skeleton :=
    [.lit "# Assignment ", .ph "assignment_number", .lit ": ", .ph "title",
     .lit "\n\n**Course:** ", .ph "course_code",
     .lit "\n**Due Date:** ", .ph "due_date",
     .lit "\n**Points:** ", .ph "total_points",
     .lit "\n**Submission:** ", .ph "submission_method",
     .lit "\n\n## Overview\n", .ph "overview",
     .lit "\n\n## Learning Objectives\nStudents will demonstrate ability to:\n", .ph "objectives",
     .lit "\n\n## Instructions\n", .ph "instructions",
     .lit "\n\n## Requirements\n", .ph "requirements",
     .lit "\n\n## Problems/Tasks\n", .ph "tasks",
     .lit "\n\n## Grading Rubric\n", .ph "rubric",
     .lit "\n\n## Submission Guidelines\n", .ph "submission_guidelines",
     .lit "\n\n## Resources\n", .ph "resources",
     .lit "\n"]
  required_fields := ["assignment_number", "due_date", "total_points", "overview"]
  optional_fields := ["submission_method", "objectives", "instructions", "requirements",
                      "tasks", "rubric", "submission_guidelines", "resources"]

def lectureTemplate : Template where
  name := "Lecture Notes"
  description := "Detailed lecture notes for class"
  skeleton :=
    [.lit "# Lecture ", .ph "lecture_number", .lit ": ", .ph "title",
     .lit "\n\n**Course:** ", .ph "course_code",
     .lit "\n**Date:** ", .ph "lecture_date",
     .lit "\n**Chapter:** ", .ph "chapter_reference",
     .lit "\n\n## Today\x27s Agenda\n", .ph "agenda",
     .lit "\n\n## Learning Objectives\n", .ph "objectives",
     .lit "\n\n## Review from Last Class\n", .ph "review",
     .lit "\n\n## Main Content\n\n", .ph "main_content",
     .lit "\n\n## Summary\n", .ph "summary",
     .lit "\n\n## Next Class Preview\n", .ph "next_class",
     .lit "\n\n## Homework/Practice\n", .ph "homework",
     .lit "\n"]
  required_fields := ["lecture_number", "lecture_date", "main_content"]
  optional_fields := ["chapter_reference", "agenda", "objectives", "review",
                      "summary", "next_class", "homework"]

def classContentTemplate : Template where
  name := "Class Content"
  description := "Daily class session content"
  skeleton :=
    [.lit "# ", .ph "title", .lit " - Class ", .ph "class_number",
     .lit "\n\n**Course:** ", .ph "course_code",
     .lit "\n**Date:** ", .ph "class_date",
     .lit "\n**Duration:** ", .ph "duration",
     .lit "\n\n## Learning Objectives\nBy the end of this class, students will be able to:\n", .ph "objectives",
     .lit "\n\n## Prerequisites\n", .ph "prerequisites",
     .lit "\n\n## Class Outline\n\n### Introduction (", .ph "intro_duration",
     .lit " minutes)\n", .ph "introduction",
     .lit "\n\n### Main Content (", .ph "main_duration",
     .lit " minutes)\n", .ph "main_content",
     .lit "\n\n### Practice/Activity (", .ph "activity_duration",
     .lit " minutes)\n", .ph "activities",
     .lit "\n\n### Wrap-up (", .ph "wrapup_duration",
     .lit " minutes)\n", .ph "wrapup",
     .lit "\n\n## Key Concepts\n", .ph "key_concepts",
     .lit "\n\n## Resources\n", .ph "resources",
     .lit "\n\n## Homework/Next Steps\n", .ph "homework",
     .lit "\n"]
  required_fields := ["class_number", "class_date", "duration", "objectives"]
  optional_fields := ["prerequisites", "intro_duration", "main_duration",
                      "activity_duration", "wrapup_duration", "introduction",
                      "main_content", "activities", "wrapup", "key_concepts",
                      "resources", "homework"]

def labTemplate : Template where
  name := "Lab Manual"
  description := "Hands-on lab exercise manual"
  skeleton :=
    [.lit "# Lab ", .ph "lab_number", .lit ": ", .ph "title",
     .lit "\n\n**Course:** ", .ph "course_code",
     .lit "\n**Duration:** ", .ph "duration",
     .lit "\n**Difficulty:** ", .ph "difficulty",
     .lit "\n\n## Objectives\nStudents will:\n", .ph "objectives",
     .lit "\n\n## Prerequisites\n", .ph "prerequisites",
     .lit "\n\n## Materials Needed\n", .ph "materials",
     .lit "\n\n## Safety Guidelines\n", .ph "safety",
     .lit "\n\n## Procedure\n\n### Part 1: Setup (", .ph "setup_duration",
     .lit " minutes)\n", .ph "setup_steps",
     .lit "\n\n### Part 2: Main Exercise (", .ph "exercise_duration",
     .lit " minutes)\n", .ph "exercise_steps",
     .lit "\n\n### Part 3: Analysis (", .ph "analysis_duration",
     .lit " minutes)\n", .ph "analysis_steps",
     .lit "\n\n## Deliverables\n", .ph "deliverables",
     .lit "\n\n## Troubleshooting\n", .ph "troubleshooting",
     .lit "\n\n## Extension Activities\n", .ph "extensions",
     .lit "\n"]
  required_fields := ["lab_number", "duration", "objectives", "exercise_steps"]
  optional_fields := ["difficulty", "prerequisites", "materials", "safety",
                      "setup_duration", "exercise_duration", "analysis_duration",
                      "setup_steps", "analysis_steps", "deliverables",
                      "troubleshooting", "extensions"]

/-- The `TEMPLATES` dict: keys in source order. -/
def TEMPLATES : List (String × Template) :=
  [("syllabus", syllabusTemplate),
   ("exam", examTemplate),
   ("assignment", assignmentTemplate),
   ("lecture", lectureTemplate),
   ("class_content", classContentTemplate),
   ("lab", labTemplate)]

/-- Python dict `.get` over the registry. -/
def registryLookup : List (String × Template) → String → Option Template
  | [], _ => none
  | (k, t) :: rest, dt => if k = dt then some t else registryLookup rest dt

/-- Function `get_template(doc_type)` from `templates.py`. -/
def get_template (doc_type : String) : Option Template :=
  registryLookup TEMPLATES doc_type

/-- Function `list_template_types()` from `templates.py`. -/
def list_template_types : List String := TEMPLATES.map Prod.fst

/-- Every template `get_template` can return is one of the six registry
entries. -/
theorem get_template_cases (doc_type : String) (t : Template)
    (h : get_template doc_type = some t) :
    t = syllabusTemplate ∨ t = examTemplate ∨ t = assignmentTemplate ∨
      t = lectureTemplate ∨ t = classContentTemplate ∨ t = labTemplate := by
  simp only [get_template, TEMPLATES, registryLookup] at h
  repeat' split at h
  all_goals simp_all

/-- Function `validate_template_fields(doc_type, fields)` from `templates.py`. -/
def validate_template_fields (doc_type : String) (fields : Dict) : Bool × List String :=
  match get_template doc_type with
  | none => (false, ["Unknown template type: " ++ doc_type])
  | some t =>
      let missing := t.required_fields.filter (fun f => ! dictContains fields f)
      (missing.isEmpty, missing)

/-- Function `populate_template(template, fields, course_code, title)` from
`templates.py`. The Python function mutates the caller-supplied `fields`
dict; the embedding returns the rendered text (`none` where Python raises
`ValueError` on a missing placeholder) together with the dict as the
function leaves it. -/
def populate_template (template : Template) (fields : Dict) (course_code title : String) :
    Option String × Dict :=
  let fields1 := dictInsert fields "course_code" course_code
  let fields2 := dictInsert fields1 "title" title
  let fields3 := template.optional_fields.foldl
    (fun acc f =>
      if dictContains acc f then acc
      else dictInsert acc f ("[" ++ fieldTitle f ++ "]"))
    fields2
  (formatSkeleton template.skeleton fields3, fields3)

/-- Function `generate_filename(course_code, doc_type, title)` from `templates.py`;
`today` stands for `datetime.now().strftime` in the no-title branch (Python
also takes that branch when `title` is the empty string, which is falsy). -/
def generate_filename (course_code doc_type : String) (title : Option String)
    (today : String) : String :=
  let clean_type := pyTitle (String.mk (doc_type.data.filter (fun c => ¬ c = '_')))
  let withTimestamp := course_code ++ "_" ++ clean_type ++ "_" ++ today ++ "_DRAFT.md"
  match title with
  | none => withTimestamp
  | some t =>
      if t = "" then withTimestamp
      else
        let kept := t.data.filter (fun c => c.isAlphanum || c = ' ' || c = '-' || c = '_')
        let clean_title := (String.mk (kept.map (fun c => if c = ' ' then '_' else c))).take 30
        course_code ++ "_" ++ clean_type ++ "_" ++ clean_title ++ "_DRAFT.md"

/-! ### Session data and the append-only store (`session_storage.py`)

`SessionData` is the dictionary built by `create_new_session` in
`echo_ink_orchestrator.py` and round-tripped through the store (spec section 6
requires full-session round-trip through serialization). Timestamps are the
ISO strings the code produces, kept opaque. -/

structure SessionData where
  session_id : String
  doc_type : String
  course_code : String
  title : String
  fields : Dict
  template_name : String
  required_fields : List String
  optional_fields : List String
  created_at : String
  last_updated : String
  document_path : Option String
  pdf_path : Option String
  deriving DecidableEq, Repr

/-- The `SESSION_DELETED` marker dict appended by `delete_session`. -/
structure DeletionMarker where
  session_id : String
  deleted : Bool
  deleted_at : String
  deriving DecidableEq, Repr

/-- Serialized record payload: `SESSION_DATA: {json}` versus
`SESSION_DELETED: {json}` message text, modelled as a tagged value (the
`startswith` checks of the code become constructor matches). -/
inductive Payload where
  | sessionData (s : SessionData)
  | sessionDeleted (m : DeletionMarker)
  deriving DecidableEq, Repr

/-- One message of a memory event: the `(text, role)` pair passed to
`create_event`. -/
structure MemMessage where
  role : String
  payload : Payload
  deriving DecidableEq, Repr

/-- The external append-only event log, in global append order; each entry is
keyed by the `session_id` passed to `create_event`. Every `create_event` call
in this repository appends exactly one single-message event. -/
abbrev MemoryLog := List (String × MemMessage)

/-- Model of the external client `get_last_k_turns(memory_id, actor_id,
session_id, k)`. Modelled from the spec: the collaborator preserves append
order per key (spec section 6) and the client surfaces the most recent `k`
turns newest-first — the resolution the spec's read rule (section 4.4,
latest wins) and the comment in `update_session` ("When retrieving, we'll
get the latest version") rely on. One event becomes one single-message
turn. -/
def getLastKTurns (log : MemoryLog) (session_id : String) (k : Nat) :
    List (List MemMessage) :=
  (((log.filter (fun e => e.1 = session_id)).map (fun e => [e.2])).reverse).take k

/-- Method `create_session(session_data)` from `session_storage.py`: appends one
`SESSION_DATA` event (role `SYSTEM`) keyed by the data's own `session_id`
and reports success. No duplicate check is performed. -/
def create_session (log : MemoryLog) (session_data : SessionData) : Bool × MemoryLog :=
  (true, log ++ [(session_data.session_id, ⟨"SYSTEM", .sessionData session_data⟩)])

/-- The inner scan of `get_session` over one turn: first message whose role
is `SYSTEM` and whose text starts with `SESSION_DATA: `. -/
def firstSessionDataInTurn : List MemMessage → Option SessionData
  | [] => none
  | m :: ms =>
      if m.role = "SYSTEM" then
        match m.payload with
        | .sessionData s => some s
        | .sessionDeleted _ => firstSessionDataInTurn ms
      else firstSessionDataInTurn ms

/-- The outer scan of `get_session` over the fetched turns, in order. -/
def firstSessionData : List (List MemMessage) → Option SessionData
  | [] => none
  | turn :: rest =>
      match firstSessionDataInTurn turn with
      | some s => some s
      | none => firstSessionData rest

/-- Method `get_session(session_id)` from `session_storage.py`: fetch the last 100
turns for the key and return the first `SESSION_DATA` payload found.
`SESSION_DELETED` markers are skipped by the `startswith` check, never
interpreted. -/
def get_session (log : MemoryLog) (session_id : String) : Option SessionData :=
  firstSessionData (getLastKTurns log session_id 100)

/-- Method `update_session(session_id, session_data)` from `session_storage.py`:
overwrite `last_updated` with the current time and append a new
`SESSION_DATA` event under the given key. -/
def update_session (log : MemoryLog) (session_id : String) (session_data : SessionData)
    (now : String) : Bool × MemoryLog :=
  let stamped := { session_data with last_updated := now }
  (true, log ++ [(session_id, ⟨"SYSTEM", .sessionData stamped⟩)])

/-- Method `delete_session(session_id)` from `session_storage.py`: append a
`SESSION_DELETED` marker event under the key and report success. -/
def delete_session (log : MemoryLog) (session_id : String) (now : String) :
    Bool × MemoryLog :=
  (true, log ++ [(session_id, ⟨"SYSTEM", .sessionDeleted ⟨session_id, true, now⟩⟩)])

/-! ### Lifecycle manager (`echo_ink_orchestrator.py`)

The tool functions are embedded on their explicit-session-id paths; the
`"latest"` alias resolves through `get_all_sessions`, which calls the
external semantic-retrieval API (`retrieve_memories`) and is outside the
event-log embedding. `datetime.now()` calls become explicit arguments. -/

/-- Helper `_get_missing_required_fields(session_data)` from the orchestrator. -/
def _get_missing_required_fields (session_data : SessionData) : List String :=
  session_data.required_fields.filter (fun f => ! dictContains session_data.fields f)

/-- The dictionary `_get_completion_status` returns. `completion_percentage`
is omitted from the embedding (floating point; no claim mentions it). -/
structure CompletionStatus where
  required_complete : Bool
  required_progress : String
  optional_progress : String
  missing_required : List String
  deriving DecidableEq, Repr

/-- Helper `_get_completion_status(session_data)` from the orchestrator. -/
def _get_completion_status (session_data : SessionData) : CompletionStatus :=
  let missing := _get_missing_required_fields session_data
  let total := session_data.required_fields.length
  let completed := total - missing.length
  let optTotal := session_data.optional_fields.length
  let optCompleted :=
    (session_data.optional_fields.filter (fun f => dictContains session_data.fields f)).length
  { required_complete := missing.isEmpty
    required_progress := toString completed ++ "/" ++ toString total
    optional_progress := toString optCompleted ++ "/" ++ toString optTotal
    missing_required := missing }

/-- The value `_regenerate_document_file_from_data` stores for field `f` in
`all_fields_data`: the session value if set, else the TO BE COMPLETED
placeholder. -/
def regen_field_value (fields : Dict) (f : String) : String :=
  match dictLookup fields f with
  | some v => v
  | none => "[" ++ fieldTitle f ++ " - TO BE COMPLETED]"

/-- The complete `all_fields_data` dict `_regenerate_document_file_from_data`
builds: the two identity entries (always present on sessions built by
`create_new_session`, so the `.get` defaults never fire), then one entry per
required and optional field of the template, in order. -/
def regen_all_fields_data (t : Template) (s : SessionData) : Dict :=
  (t.required_fields ++ t.optional_fields).foldl
    (fun acc f => dictInsert acc f (regen_field_value s.fields f))
    [("course_code", s.course_code), ("title", s.title)]

/-- Outcome of `_regenerate_document_file_from_data`. -/
inductive RegenOutcome where
  | noWrite
  | wrote (content : String)
  | raised
  deriving DecidableEq, Repr

/-- Helper `_regenerate_document_file_from_data(session_data)`: returns without
writing when `document_path` is unset or the template is unknown; renders
and writes the content otherwise; re-raises when `format` fails. -/
def regenerate_doc_file (session_data : SessionData) : RegenOutcome :=
  match session_data.document_path with
  | none => .noWrite
  | some _ =>
      match get_template session_data.doc_type with
      | none => .noWrite
      | some t =>
          match formatSkeleton t.skeleton (regen_all_fields_data t session_data) with
          | none => .raised
          | some content => .wrote content

/-- Result of the `update_session_field` tool (the JSON payloads). -/
inductive UpdateFieldResult where
  | notFound (session_id : String)
  | invalidField (field_name : String) (available_fields : List String)
  | ok (session_id field_name field_value : String) (file_path : Option String)
      (completion_status : CompletionStatus)
  | raised
  deriving DecidableEq, Repr

/-- Tool `update_session_field(session_id, field_name, field_value)` on the
explicit-id path. `nowField` is the `datetime.now()` of the orchestrator,
`nowStore` the one `update_session` stamps. -/
def update_session_field (log : MemoryLog) (session_id field_name field_value : String)
    (nowField nowStore : String) : UpdateFieldResult × MemoryLog :=
  match get_session log session_id with
  | none => (.notFound session_id, log)
  | some s =>
      let all_fields := s.required_fields ++ s.optional_fields
      if all_fields.contains field_name then
        let s1 := { s with fields := dictInsert s.fields field_name field_value,
                           last_updated := nowField }
        let log1 := (update_session log s1.session_id s1 nowStore).2
        match regenerate_doc_file s1 with
        | .raised => (.raised, log1)
        | _ => (.ok s1.session_id field_name field_value s1.document_path
                  (_get_completion_status s1), log1)
      else (.invalidField field_name all_fields, log)

/-- Result of the `finalize_session` tool (the JSON payloads). -/
inductive FinalizeResult where
  | notFound (session_id : String)
  | incomplete (missing_fields : List String)
  | ok (session_id : String) (final_content : String)
      (md_file_path pdf_file_path : String) (title : String)
  | raised
  deriving DecidableEq, Repr

/-- Tool `finalize_session(session_id)` on the explicit-id path: gate on
completion, render through `populate_template` (which mutates the session's
own `fields` dict), write the final markdown, derive the PDF (external sink
and deriver, spec section 6), record both paths and persist via
`update_session`. `raised` covers the caught-exception error returns
(unknown template, `ValueError` from `populate_template`). -/
def finalize_session (log : MemoryLog) (session_id : String) (today nowStore : String) :
    FinalizeResult × MemoryLog :=
  match get_session log session_id with
  | none => (.notFound session_id, log)
  | some s =>
      let status := _get_completion_status s
      if status.required_complete then
        match get_template s.doc_type with
        | none => (.raised, log)
        | some t =>
            match populate_template t s.fields s.course_code s.title with
            | (none, _) => (.raised, log)
            | (some final_content, fields3) =>
                let final_filename :=
                  (generate_filename s.course_code s.doc_type (some s.title) today).replace
                    "_DRAFT" "_FINAL"
                let final_md_path := "documents/" ++ final_filename
                let final_pdf_path := "documents/" ++ (final_filename.replace ".md" ".pdf")
                let s1 := { s with fields := fields3,
                                   document_path := some final_md_path,
                                   pdf_path := some final_pdf_path }
                let log1 := (update_session log s1.session_id s1 nowStore).2
                (.ok s1.session_id final_content final_md_path final_pdf_path s.title, log1)
      else (.incomplete status.missing_required, log)

/-- Tool `regenerate_document(session_id)` on the explicit-id path: resolve the
session, regenerate the document file from it, append nothing. `none` is the
not-found error return. -/
def regenerate_document (log : MemoryLog) (session_id : String) :
    Option RegenOutcome × MemoryLog :=
  match get_session log session_id with
  | none => (none, log)
  | some s => (some (regenerate_doc_file s), log)

/-! ### Lemmas about dict folds

The two field loops of the code — unconditional insertion in
`_regenerate_document_file_from_data`, insert-if-absent in
`populate_template` — insert, for each field name `x`, a value depending
only on `x` (and the fixed session fields), so lookups after the folds have
closed forms. -/

theorem dictLookup_foldl_insert_not_mem (L : List String) (g : String → String)
    (d : Dict) (f : String) (h : f ∉ L) :
    dictLookup (L.foldl (fun acc x => dictInsert acc x (g x)) d) f = dictLookup d f := by
  induction L generalizing d with
  | nil => rfl
  | cons x rest ih =>
      have hx : x ≠ f := fun e => h (e ▸ List.mem_cons_self x rest)
      simp only [List.foldl_cons]
      rw [ih _ (fun hf => h (List.mem_cons_of_mem _ hf)), dictLookup_insert_ne _ _ _ _ hx]

theorem dictLookup_foldl_insert_mem (L : List String) (g : String → String)
    (d : Dict) (f : String) (h : f ∈ L) :
    dictLookup (L.foldl (fun acc x => dictInsert acc x (g x)) d) f = some (g f) := by
  induction L generalizing d with
  | nil => cases h
  | cons x rest ih =>
      simp only [List.foldl_cons]
      by_cases hr : f ∈ rest
      · exact ih _ hr
      · have hx : f = x := by
          rcases List.mem_cons.mp h with h1 | h2
          · exact h1
          · exact absurd h2 hr
        subst hx
        rw [dictLookup_foldl_insert_not_mem rest g _ f hr, dictLookup_insert_self]

theorem dictLookup_condInsert_ne (d : Dict) (x f : String) (v : String) (h : x ≠ f) :
    dictLookup (if dictContains d x then d else dictInsert d x v) f = dictLookup d f := by
  split
  · rfl
  · exact dictLookup_insert_ne d f x v h

theorem dictLookup_condfold_not_mem (L : List String) (g : String → String)
    (d : Dict) (f : String) (h : f ∉ L) :
    dictLookup
      (L.foldl (fun acc x => if dictContains acc x then acc else dictInsert acc x (g x)) d) f
      = dictLookup d f := by
  induction L generalizing d with
  | nil => rfl
  | cons x rest ih =>
      have hx : x ≠ f := fun e => h (e ▸ List.mem_cons_self x rest)
      simp only [List.foldl_cons]
      rw [ih _ (fun hf => h (List.mem_cons_of_mem _ hf)), dictLookup_condInsert_ne _ _ _ _ hx]

theorem dictLookup_condfold_mem (L : List String) (g : String → String)
    (d : Dict) (f : String) (h : f ∈ L) :
    dictLookup
      (L.foldl (fun acc x => if dictContains acc x then acc else dictInsert acc x (g x)) d) f
      = some ((dictLookup d f).getD (g f)) := by
  induction L generalizing d with
  | nil => cases h
  | cons x rest ih =>
      simp only [List.foldl_cons]
      by_cases hr : f ∈ rest
      · rw [ih _ hr]
        by_cases hx : x = f
        · subst hx
          by_cases hc : dictContains d x = true
          · simp [hc]
          · rw [if_neg hc, dictLookup_insert_self]
            have hn : dictLookup d x = none := by
              rcases ho : dictLookup d x with _ | v
              · rfl
              · exact absurd (by simp [dictContains, ho]) hc
            simp [hn]
        · rw [dictLookup_condInsert_ne _ _ _ _ hx]
      · have hx : f = x := by
          rcases List.mem_cons.mp h with h1 | h2
          · exact h1
          · exact absurd h2 hr
        subst hx
        rw [dictLookup_condfold_not_mem rest g _ f hr]
        by_cases hc : dictContains d f = true
        · obtain ⟨v, hv⟩ := Option.isSome_iff_exists.mp hc
          simp [hc, hv]
        · rw [if_neg hc, dictLookup_insert_self]
          have hn : dictLookup d f = none := by
            rcases ho : dictLookup d f with _ | v
            · rfl
            · exact absurd (by simp [dictContains, ho]) hc
          simp [hn]

theorem dictLookup_insert_isSome (d : Dict) (k v f : String)
    (h : (dictLookup d f).isSome = true) :
    (dictLookup (dictInsert d k v) f).isSome = true := by
  by_cases hk : k = f
  · subst hk
    rw [dictLookup_insert_self]
    rfl
  · rw [dictLookup_insert_ne _ _ _ _ hk]
    exact h

theorem dictLookup_condfold_isSome_mono (L : List String) (g : String → String)
    (d : Dict) (f : String) (h : (dictLookup d f).isSome = true) :
    (dictLookup
      (L.foldl (fun acc x => if dictContains acc x then acc else dictInsert acc x (g x)) d)
      f).isSome = true := by
  induction L generalizing d with
  | nil => exact h
  | cons x rest ih =>
      simp only [List.foldl_cons]
      refine ih _ ?_
      split
      · exact h
      · exact dictLookup_insert_isSome _ _ _ _ h

theorem dictLookup_condfold_isSome_of_mem (L : List String) (g : String → String)
    (d : Dict) (f : String) (h : f ∈ L) :
    (dictLookup
      (L.foldl (fun acc x => if dictContains acc x then acc else dictInsert acc x (g x)) d)
      f).isSome = true := by
  rw [dictLookup_condfold_mem L g d f h]
  rfl

/-! ### Lemmas about store reads -/

theorem firstSessionData_take_pos (k : Nat) (hk : 0 < k) (turn : List MemMessage)
    (rest : List (List MemMessage)) (s : SessionData)
    (h : firstSessionDataInTurn turn = some s) :
    firstSessionData (List.take k (turn :: rest)) = some s := by
  cases k with
  | zero => exact absurd hk (by simp)
  | succ k =>
      show firstSessionData (turn :: List.take k rest) = some s
      simp [firstSessionData, h]

/-- Reading right after a normal-snapshot append resolves that snapshot:
the freshly appended event is the newest turn the client returns. -/
theorem get_session_append_data (log : MemoryLog) (sid : String) (s : SessionData) :
    get_session (log ++ [(sid, ⟨"SYSTEM", .sessionData s⟩)]) sid = some s := by
  have h1 : firstSessionDataInTurn [⟨"SYSTEM", .sessionData s⟩] = some s := by
    simp [firstSessionDataInTurn]
  simp only [get_session, getLastKTurns, List.filter_append, List.map_append,
    List.reverse_append]
  simp only [List.filter_cons, List.filter_nil, decide_eq_true_eq, if_pos rfl,
    List.map_cons, List.map_nil, List.reverse_cons, List.reverse_nil, List.nil_append,
    List.cons_append]
  exact firstSessionData_take_pos 100 (by decide) _ _ s h1

/-! ### Per-template registry facts, used by the renderer and finalize
theorems. -/

theorem registry_fields_facts (doc_type : String) (t : Template)
    (h : get_template doc_type = some t) :
    t.optional_fields.Nodup ∧
    "course_code" ∉ t.required_fields ∧ "course_code" ∉ t.optional_fields ∧
    "title" ∉ t.required_fields ∧ "title" ∉ t.optional_fields ∧
    (∀ p ∈ placeholdersOf t.skeleton,
      p ∈ t.required_fields ∨ p ∈ t.optional_fields ∨ p = "course_code" ∨ p = "title") := by
  rcases get_template_cases _ _ h with h' | h' | h' | h' | h' | h' <;> subst h' <;> decide

/-! ### Claim C1 — tombstone precedence on read -/

/-- A one-snapshot syllabus session used to exercise the delete/read path. -/
def c1Session : SessionData where
  session_id := "s1"
  doc_type := "syllabus"
  course_code := "CS101"
  title := "Intro to CS"
  fields := [("instructor_name", "Dr. A")]
  template_name := "Course Syllabus"
  required_fields := ["instructor_name", "semester", "credits", "description"]
  optional_fields := ["objectives", "modules", "assessment", "schedule", "policies"]
  created_at := "1"
  last_updated := "1"
  document_path := some "documents/CS101_Syllabus_Intro_to_CS_DRAFT.md"
  pdf_path := none

/-- C1: the claim states that a tombstone with timestamp at or after the
newest normal snapshot makes `get_session` return not-found. Evaluating the
code at that exact scenario — one normal snapshot (timestamp 1) followed by
the deletion marker `delete_session` appends (timestamp 2) — shows
`get_session` still returns the snapshot's data: the read path matches only
`SESSION_DATA` messages and never inspects `SESSION_DELETED` markers, so the
marker `delete_session` writes is dead on every read. -/
theorem c1_read_after_delete_returns_snapshot :
    get_session (delete_session (create_session [] c1Session).2 "s1" "2").2 "s1"
      = some c1Session := by decide

/-! ### Claim C2 — store last-write-wins -/

/-- C2: appending normal snapshots S1 (timestamp 1) then S2 (timestamp 2)
for the same session id makes a subsequent `get_session` return S2's data
exactly: the freshly appended record is the newest turn the memory client
returns, and the scan takes the first `SESSION_DATA` hit. -/
theorem c2_last_write_wins (log : MemoryLog) (sid : String) (s1 s2 : SessionData)
    (h1 : s1.session_id = sid) (h2 : s2.session_id = sid)
    (ht1 : s1.last_updated = "1") (ht2 : s2.last_updated = "2") :
    get_session (create_session (create_session log s1).2 s2).2 sid = some s2 := by
  show get_session
      ((log ++ [(s1.session_id, ⟨"SYSTEM", .sessionData s1⟩)])
        ++ [(s2.session_id, ⟨"SYSTEM", .sessionData s2⟩)]) sid = some s2
  rw [h2]
  exact get_session_append_data _ sid s2

/-- First snapshot for the C2 witness scenario. -/
def c2S1 : SessionData :=
  { c1Session with fields := [("instructor_name", "Dr. A")], last_updated := "1" }

/-- Second snapshot for the C2 witness scenario, with different field
values. -/
def c2S2 : SessionData :=
  { c1Session with fields := [("instructor_name", "Dr. B"), ("semester", "Fall")],
                   last_updated := "2" }

theorem c2_last_write_wins_witness :
    c2S1.session_id = "s1" ∧ c2S2.session_id = "s1" ∧
      c2S1.last_updated = "1" ∧ c2S2.last_updated = "2" ∧
      get_session (create_session (create_session [] c2S1).2 c2S2).2 "s1" = some c2S2 :=
  ⟨rfl, rfl, rfl, rfl, c2_last_write_wins [] "s1" c2S1 c2S2 rfl rfl rfl rfl⟩

/-! ### Claim C3 — duplicate-create rejection -/

/-- An already-existing, non-tombstoned session snapshot. -/
def c3Existing : SessionData :=
  { c1Session with fields := [("instructor_name", "Dr. A")], last_updated := "1" }

/-- The log after that snapshot was created. -/
def c3Log : MemoryLog := (create_session [] c3Existing).2

/-- A second creation attempt for the same session id. -/
def c3New : SessionData :=
  { c1Session with fields := [], created_at := "2", last_updated := "2" }

/-- C3 counterexample: with a non-tombstoned snapshot for `s1` already
resolvable in the log, `create_session` for the same id still reports
success and appends a second snapshot — there is no duplicate check, so the
claim as stated is false. -/
theorem c3_duplicate_create_not_rejected :
    get_session c3Log "s1" = some c3Existing ∧
      (create_session c3Log c3New).1 = true ∧
      (create_session c3Log c3New).2 = c3Log ++ [("s1", ⟨"SYSTEM", .sessionData c3New⟩)] := by
  decide

/-- C3 amended: `create_session` performs no duplicate check — even when the
id already resolves to a non-tombstoned snapshot, it unconditionally appends
a new snapshot under that id and reports success. -/
theorem c3_create_always_appends (log : MemoryLog) (s : SessionData)
    (h : ∃ prior : SessionData, get_session log s.session_id = some prior) :
    create_session log s
      = (true, log ++ [(s.session_id, ⟨"SYSTEM", .sessionData s⟩)]) := rfl

theorem c3_create_always_appends_witness :
    (∃ prior : SessionData, get_session c3Log c3New.session_id = some prior) ∧
      create_session c3Log c3New
        = (true, c3Log ++ [("s1", ⟨"SYSTEM", .sessionData c3New⟩)]) :=
  ⟨⟨c3Existing, by decide⟩, c3_create_always_appends c3Log c3New ⟨c3Existing, by decide⟩⟩

/-! ### Claim C4 — renderer placeholder synthesis -/

/-- The complete substitution mapping exactly as claim C4 (and spec section
4.3) words it: identity fields, then the caller fields, then an
`[<Optional Title> - TO BE COMPLETED]` entry for each optional field of the
template not present in the fields. Written from the claim, to be compared
against the code's two renderers. -/
def claimed_render_mapping (t : Template) (fields : Dict) (course_code title : String) :
    Dict :=
  [("course_code", course_code), ("title", title)] ++ fields ++
    ((t.optional_fields.filter (fun o => ! dictContains fields o)).map
      (fun o => (o, "[" ++ fieldTitle o ++ " - TO BE COMPLETED]")))

/-- Caller fields for the C4 scenario: all syllabus required fields set,
every optional field unset. -/
def c4Fields : Dict :=
  [("instructor_name", "Dr. A"), ("semester", "Fall 2024"), ("credits", "3"),
   ("description", "Basics")]

/-- C4 counterexample: `populate_template` synthesizes `[Objectives]` for
the unset optional field `objectives` — without the ` - TO BE COMPLETED`
suffix the claim requires — so its rendered output differs from substituting
the claimed mapping. -/
theorem c4_populate_placeholder_lacks_suffix :
    dictLookup (populate_template syllabusTemplate c4Fields "CS101" "Intro").2 "objectives"
        = some "[Objectives]" ∧
      (populate_template syllabusTemplate c4Fields "CS101" "Intro").1
        ≠ formatSkeleton syllabusTemplate.skeleton
            (claimed_render_mapping syllabusTemplate c4Fields "CS101" "Intro") := by
  decide

/-- The value of `regen_field_value` in `getD` form. -/
theorem regen_field_value_eq_getD (d : Dict) (f : String) :
    regen_field_value d f
      = (dictLookup d f).getD ("[" ++ fieldTitle f ++ " - TO BE COMPLETED]") := by
  cases h : dictLookup d f <;> simp [regen_field_value, h]

/-- C4 amended: for every registry template, the document-file renderer
`_regenerate_document_file_from_data` substitutes the identity fields, the
set fields, and an `[<Title> - TO BE COMPLETED]` placeholder for every
required or optional field left unset; `populate_template` substitutes the
identity fields, the set fields, and an `[<Title>]` placeholder — without
the ` - TO BE COMPLETED` suffix — for every optional field left unset. -/
theorem c4_render_mappings (doc_type : String) (t : Template) (s : SessionData)
    (fields : Dict) (course_code title : String)
    (h : get_template doc_type = some t) :
    (dictLookup (regen_all_fields_data t s) "course_code" = some s.course_code ∧
     dictLookup (regen_all_fields_data t s) "title" = some s.title ∧
     (∀ f ∈ t.required_fields ++ t.optional_fields,
       dictLookup (regen_all_fields_data t s) f
         = some ((dictLookup s.fields f).getD
             ("[" ++ fieldTitle f ++ " - TO BE COMPLETED]")))) ∧
    ((populate_template t fields course_code title).1
        = formatSkeleton t.skeleton (populate_template t fields course_code title).2 ∧
     dictLookup (populate_template t fields course_code title).2 "course_code"
        = some course_code ∧
     dictLookup (populate_template t fields course_code title).2 "title" = some title ∧
     (∀ o ∈ t.optional_fields,
       dictLookup (populate_template t fields course_code title).2 o
         = some ((dictLookup fields o).getD ("[" ++ fieldTitle o ++ "]")))) := by
  obtain ⟨hnd, hccR, hccO, htiR, htiO, hph⟩ := registry_fields_facts doc_type t h
  have hccRO : "course_code" ∉ t.required_fields ++ t.optional_fields := by
    simp [List.mem_append, hccR, hccO]
  have htiRO : "title" ∉ t.required_fields ++ t.optional_fields := by
    simp [List.mem_append, htiR, htiO]
  constructor
  · refine ⟨?_, ?_, ?_⟩
    · exact (dictLookup_foldl_insert_not_mem (t.required_fields ++ t.optional_fields)
        (fun f => regen_field_value s.fields f)
        [("course_code", s.course_code), ("title", s.title)] "course_code" hccRO).trans
        (by simp [dictLookup])
    · exact (dictLookup_foldl_insert_not_mem (t.required_fields ++ t.optional_fields)
        (fun f => regen_field_value s.fields f)
        [("course_code", s.course_code), ("title", s.title)] "title" htiRO).trans
        (by simp [dictLookup])
    · intro f hf
      exact (dictLookup_foldl_insert_mem (t.required_fields ++ t.optional_fields)
        (fun f => regen_field_value s.fields f)
        [("course_code", s.course_code), ("title", s.title)] f hf).trans
        (by rw [regen_field_value_eq_getD])
  · refine ⟨rfl, ?_, ?_, ?_⟩
    · exact (dictLookup_condfold_not_mem t.optional_fields
        (fun o => "[" ++ fieldTitle o ++ "]")
        (dictInsert (dictInsert fields "course_code" course_code) "title" title)
        "course_code" hccO).trans
        (by rw [dictLookup_insert_ne _ _ _ _ (by decide), dictLookup_insert_self])
    · exact (dictLookup_condfold_not_mem t.optional_fields
        (fun o => "[" ++ fieldTitle o ++ "]")
        (dictInsert (dictInsert fields "course_code" course_code) "title" title)
        "title" htiO).trans (dictLookup_insert_self _ _ _)
    · intro o ho
      have hoc : "course_code" ≠ o := fun e => hccO (e ▸ ho)
      have hot : "title" ≠ o := fun e => htiO (e ▸ ho)
      exact (dictLookup_condfold_mem t.optional_fields
        (fun o => "[" ++ fieldTitle o ++ "]")
        (dictInsert (dictInsert fields "course_code" course_code) "title" title) o ho).trans
        (by rw [dictLookup_insert_ne _ _ _ _ hot, dictLookup_insert_ne _ _ _ _ hoc])

/-- Session used in the C4 witness. -/
def c4Session : SessionData where
  session_id := "s4"
  doc_type := "syllabus"
  course_code := "CS101"
  title := "Intro to CS"
  fields := [("instructor_name", "Dr. A")]
  template_name := "Course Syllabus"
  required_fields := ["instructor_name", "semester", "credits", "description"]
  optional_fields := ["objectives", "modules", "assessment", "schedule", "policies"]
  created_at := "1"
  last_updated := "1"
  document_path := some "documents/CS101_Syllabus_Intro_to_CS_DRAFT.md"
  pdf_path := none

theorem c4_render_mappings_witness :
    get_template "syllabus" = some syllabusTemplate ∧
    ((dictLookup (regen_all_fields_data syllabusTemplate c4Session) "course_code"
        = some c4Session.course_code ∧
      dictLookup (regen_all_fields_data syllabusTemplate c4Session) "title"
        = some c4Session.title ∧
      (∀ f ∈ syllabusTemplate.required_fields ++ syllabusTemplate.optional_fields,
        dictLookup (regen_all_fields_data syllabusTemplate c4Session) f
          = some ((dictLookup c4Session.fields f).getD
              ("[" ++ fieldTitle f ++ " - TO BE COMPLETED]")))) ∧
     ((populate_template syllabusTemplate c4Fields "CS101" "Intro").1
         = formatSkeleton syllabusTemplate.skeleton
             (populate_template syllabusTemplate c4Fields "CS101" "Intro").2 ∧
      dictLookup (populate_template syllabusTemplate c4Fields "CS101" "Intro").2 "course_code"
         = some "CS101" ∧
      dictLookup (populate_template syllabusTemplate c4Fields "CS101" "Intro").2 "title"
         = some "Intro" ∧
      (∀ o ∈ syllabusTemplate.optional_fields,
        dictLookup (populate_template syllabusTemplate c4Fields "CS101" "Intro").2 o
          = some ((dictLookup c4Fields o).getD ("[" ++ fieldTitle o ++ "]"))))) :=
  ⟨rfl, c4_render_mappings "syllabus" syllabusTemplate c4Session c4Fields "CS101" "Intro" rfl⟩

/-! ### Claim C5 — finalization gating -/

/-- C5: when the resolved session is missing at least one required field,
`finalize_session` returns the incomplete error carrying exactly the missing
required field names (in template order) and leaves the log untouched — no
snapshot is appended, so the stored fields are unchanged. -/
theorem c5_finalize_gating (log : MemoryLog) (sid today now : String) (s : SessionData)
    (hres : get_session log sid = some s)
    (hmiss : s.required_fields.filter (fun f => ! dictContains s.fields f) ≠ []) :
    finalize_session log sid today now
      = (.incomplete (s.required_fields.filter (fun f => ! dictContains s.fields f)), log) := by
  simp [finalize_session, hres, _get_completion_status, _get_missing_required_fields,
    List.isEmpty_iff, hmiss]

/-- Session for the C5 witness: two of the four syllabus required fields are
missing. -/
def c5Session : SessionData :=
  { c4Session with session_id := "s5",
                   fields := [("instructor_name", "Dr. A"), ("semester", "Fall")] }

/-- The log holding that single snapshot. -/
def c5Log : MemoryLog := (create_session [] c5Session).2

theorem c5_finalize_gating_witness :
    get_session c5Log "s5" = some c5Session ∧
      c5Session.required_fields.filter (fun f => ! dictContains c5Session.fields f)
        ≠ ([] : List String) ∧
      finalize_session c5Log "s5" "20240102" "3"
        = (.incomplete (c5Session.required_fields.filter
            (fun f => ! dictContains c5Session.fields f)), c5Log) :=
  ⟨by decide, by decide,
    c5_finalize_gating c5Log "s5" "20240102" "3" c5Session (by decide) (by decide)⟩

/-! ### Claim C6 — unknown-field rejection -/

/-- C6: when the field name is outside the session's required and optional
field lists, `update_session_field` returns the validation error whose
payload enumerates exactly those valid field names, and the log is left
untouched — no snapshot is appended, so neither `fields` nor `last_updated`
of the stored session changes. -/
theorem c6_unknown_field_rejected (log : MemoryLog)
    (sid field_name field_value nowField nowStore : String) (s : SessionData)
    (hres : get_session log sid = some s)
    (hfn : field_name ∉ s.required_fields ++ s.optional_fields) :
    update_session_field log sid field_name field_value nowField nowStore
      = (.invalidField field_name (s.required_fields ++ s.optional_fields), log) := by
  have hneg : ¬ ((s.required_fields ++ s.optional_fields).contains field_name = true) :=
    fun hc => hfn (List.mem_of_elem_eq_true hc)
  simp only [update_session_field, hres]
  rw [if_neg hneg]

/-- Session and log for the C6 witness. -/
def c6Session : SessionData := { c4Session with session_id := "s6" }

/-- The log holding that single snapshot. -/
def c6Log : MemoryLog := (create_session [] c6Session).2

theorem c6_unknown_field_rejected_witness :
    get_session c6Log "s6" = some c6Session ∧
      "nonexistent_field" ∉ c6Session.required_fields ++ c6Session.optional_fields ∧
      update_session_field c6Log "s6" "nonexistent_field" "x" "2" "2"
        = (.invalidField "nonexistent_field"
            (c6Session.required_fields ++ c6Session.optional_fields), c6Log) :=
  ⟨by decide, by decide,
    c6_unknown_field_rejected c6Log "s6" "nonexistent_field" "x" "2" "2" c6Session
      (by decide) (by decide)⟩

/-! ### Claim C7 — validator correctness -/

/-- C7: for every registry template and field mapping, the missing-required
computation returns exactly the required names absent from the mapping's
keys, in required-list order; validity holds iff that list is empty; and the
orchestrator's `_get_missing_required_fields` computes the same
order-preserving difference over a session's stored lists. -/
theorem c7_validator (doc_type : String) (t : Template) (F : Dict)
    (h : get_template doc_type = some t) :
    (validate_template_fields doc_type F).2
        = t.required_fields.filter (fun f => decide (f ∉ dictKeys F)) ∧
      ((validate_template_fields doc_type F).1 = true
        ↔ (validate_template_fields doc_type F).2 = []) ∧
      ∀ s : SessionData,
        _get_missing_required_fields s
          = s.required_fields.filter (fun f => decide (f ∉ dictKeys s.fields)) := by
  have hfilter : ∀ (d : Dict) (L : List String),
      L.filter (fun f => ! dictContains d f)
        = L.filter (fun f => decide (f ∉ dictKeys d)) := by
    intro d L
    apply List.filter_congr
    intro f _
    by_cases hm : f ∈ dictKeys d
    · have hs : (dictLookup d f).isSome = true := (dictLookup_isSome_iff_mem_keys d f).mpr hm
      simp [dictContains, hs, hm]
    · have hs : (dictLookup d f).isSome = false := by
        cases hh : (dictLookup d f).isSome
        · rfl
        · exact absurd ((dictLookup_isSome_iff_mem_keys d f).mp hh) hm
      simp [dictContains, hs, hm]
  refine ⟨?_, ?_, ?_⟩
  · simp only [validate_template_fields, h]
    exact hfilter F t.required_fields
  · simp only [validate_template_fields, h]
    exact List.isEmpty_iff
  · intro s
    simp only [_get_missing_required_fields]
    exact hfilter s.fields s.required_fields

theorem c7_validator_witness :
    get_template "syllabus" = some syllabusTemplate ∧
      ((validate_template_fields "syllabus" [("instructor_name", "Dr. A")]).2
          = syllabusTemplate.required_fields.filter
              (fun f => decide (f ∉ dictKeys [("instructor_name", "Dr. A")])) ∧
        ((validate_template_fields "syllabus" [("instructor_name", "Dr. A")]).1 = true
          ↔ (validate_template_fields "syllabus" [("instructor_name", "Dr. A")]).2 = []) ∧
        ∀ s : SessionData,
          _get_missing_required_fields s
            = s.required_fields.filter (fun f => decide (f ∉ dictKeys s.fields))) :=
  ⟨rfl, c7_validator "syllabus" syllabusTemplate [("instructor_name", "Dr. A")] rfl⟩

/-! ### Claim C8 — regeneration idempotence -/

/-- C8: `regenerate_document` appends nothing to the store, so calling it
twice in a row with no intervening `set_field` resolves the same session
both times and produces the identical rendered document content (the whole
result, content included, is equal). -/
theorem c8_regenerate_idempotent (log : MemoryLog) (sid : String) :
    (regenerate_document log sid).2 = log ∧
      regenerate_document (regenerate_document log sid).2 sid
        = regenerate_document log sid := by
  have h2 : (regenerate_document log sid).2 = log := by
    cases h : get_session log sid <;> simp [regenerate_document, h]
  exact ⟨h2, by rw [h2]⟩

/-! ### Claim C9 — `populate_template` mutates the caller's fields dict and
finalize persists the synthesized entries -/

/-- C9: `populate_template` receives the session's own `fields` dict and
mutates it in place — afterwards it additionally holds `course_code`,
`title`, and a placeholder entry for every previously unset optional field —
and since `finalize_session` then persists the session, the appended
snapshot stores exactly that mutated dict, placeholder strings included. -/
theorem c9_finalize_persists_mutated_fields (log : MemoryLog) (sid today now : String)
    (s : SessionData) (t : Template)
    (hres : get_session log sid = some s)
    (ht : get_template s.doc_type = some t)
    (hreqf : s.required_fields = t.required_fields)
    (hcomplete : s.required_fields.filter (fun f => ! dictContains s.fields f) = []) :
    ∃ stored : SessionData,
      (finalize_session log sid today now).2
          = log ++ [(s.session_id, ⟨"SYSTEM", .sessionData stored⟩)] ∧
      stored.fields = (populate_template t s.fields s.course_code s.title).2 ∧
      dictLookup stored.fields "course_code" = some s.course_code ∧
      dictLookup stored.fields "title" = some s.title ∧
      ∀ o ∈ t.optional_fields, dictContains s.fields o = false →
        dictLookup stored.fields o = some ("[" ++ fieldTitle o ++ "]") := by
  obtain ⟨hnd, hccR, hccO, htiR, htiO, hph⟩ := registry_fields_facts s.doc_type t ht
  have hreq : ∀ r ∈ t.required_fields, (dictLookup s.fields r).isSome = true := by
    intro r hr2
    have hr3 : r ∈ s.required_fields := hreqf ▸ hr2
    by_contra hno
    have hcont : dictContains s.fields r = false := by
      cases hcc : (dictLookup s.fields r).isSome
      · exact hcc
      · exact absurd hcc hno
    have hmemf : r ∈ s.required_fields.filter (fun f => ! dictContains s.fields f) :=
      List.mem_filter.mpr ⟨hr3, by rw [hcont]; rfl⟩
    rw [hcomplete] at hmemf
    cases hmemf
  have hall : ∀ p ∈ placeholdersOf t.skeleton,
      (dictLookup (populate_template t s.fields s.course_code s.title).2 p).isSome = true := by
    intro p hp
    rcases hph p hp with hp1 | hp2 | hp3 | hp3
    · have h0 := hreq p hp1
      have hns1 := dictLookup_insert_isSome s.fields "course_code" s.course_code p h0
      have hns2 := dictLookup_insert_isSome _ "title" s.title p hns1
      exact dictLookup_condfold_isSome_mono t.optional_fields
        (fun o => "[" ++ fieldTitle o ++ "]") _ p hns2
    · exact dictLookup_condfold_isSome_of_mem t.optional_fields
        (fun o => "[" ++ fieldTitle o ++ "]") _ p hp2
    · subst hp3
      have hns1 : (dictLookup (dictInsert s.fields "course_code" s.course_code)
          "course_code").isSome = true := by rw [dictLookup_insert_self]; rfl
      have hns2 := dictLookup_insert_isSome _ "title" s.title _ hns1
      exact dictLookup_condfold_isSome_mono t.optional_fields
        (fun o => "[" ++ fieldTitle o ++ "]") _ _ hns2
    · subst hp3
      have hns2 : (dictLookup (dictInsert (dictInsert s.fields "course_code" s.course_code)
          "title" s.title) "title").isSome = true := by rw [dictLookup_insert_self]; rfl
      exact dictLookup_condfold_isSome_mono t.optional_fields
        (fun o => "[" ++ fieldTitle o ++ "]") _ _ hns2
  have hsome : ((populate_template t s.fields s.course_code s.title).1).isSome = true :=
    formatSkeleton_isSome t.skeleton _ hall
  obtain ⟨c, hc⟩ := Option.isSome_iff_exists.mp hsome
  have hP : populate_template t s.fields s.course_code s.title
      = (some c, (populate_template t s.fields s.course_code s.title).2) :=
    Prod.ext hc rfl
  have hb : (_get_completion_status s).required_complete = true := by
    simp [_get_completion_status, _get_missing_required_fields, hcomplete]
  refine ⟨{ s with
      fields := (populate_template t s.fields s.course_code s.title).2,
      document_path := some ("documents/" ++
        ((generate_filename s.course_code s.doc_type (some s.title) today).replace
          "_DRAFT" "_FINAL")),
      pdf_path := some ("documents/" ++
        (((generate_filename s.course_code s.doc_type (some s.title) today).replace
          "_DRAFT" "_FINAL").replace ".md" ".pdf")),
      last_updated := now }, ?_, rfl, ?_, ?_, ?_⟩
  · simp only [finalize_session, hres, ht]
    rw [if_pos hb, hP]
    exact rfl
  · exact (dictLookup_condfold_not_mem t.optional_fields
      (fun o => "[" ++ fieldTitle o ++ "]")
      (dictInsert (dictInsert s.fields "course_code" s.course_code) "title" s.title)
      "course_code" hccO).trans
      (by rw [dictLookup_insert_ne _ _ _ _ (by decide), dictLookup_insert_self])
  · exact (dictLookup_condfold_not_mem t.optional_fields
      (fun o => "[" ++ fieldTitle o ++ "]")
      (dictInsert (dictInsert s.fields "course_code" s.course_code) "title" s.title)
      "title" htiO).trans (dictLookup_insert_self _ _ _)
  · intro o ho hnone
    have hlook : dictLookup s.fields o = none := by
      cases hd : dictLookup s.fields o
      · rfl
      · rw [show dictContains s.fields o = true from by simp [dictContains, hd]] at hnone
        cases hnone
    have hoc : "course_code" ≠ o := fun e => hccO (e ▸ ho)
    have hot : "title" ≠ o := fun e => htiO (e ▸ ho)
    exact (dictLookup_condfold_mem t.optional_fields
      (fun o => "[" ++ fieldTitle o ++ "]")
      (dictInsert (dictInsert s.fields "course_code" s.course_code) "title" s.title) o ho).trans
      (by rw [dictLookup_insert_ne _ _ _ _ hot, dictLookup_insert_ne _ _ _ _ hoc, hlook]
          simp)

/-- A complete syllabus session for the C9 witness: all required fields set,
`objectives` and the other optional fields unset. -/
def c9Session : SessionData :=
  { c4Session with session_id := "s9",
                   fields := [("instructor_name", "Dr. A"), ("semester", "Fall 2024"),
                              ("credits", "3"), ("description", "Basics")] }

/-- The log holding that single snapshot. -/
def c9Log : MemoryLog := (create_session [] c9Session).2

theorem c9_finalize_persists_mutated_fields_witness :
    get_session c9Log "s9" = some c9Session ∧
      get_template c9Session.doc_type = some syllabusTemplate ∧
      c9Session.required_fields = syllabusTemplate.required_fields ∧
      c9Session.required_fields.filter (fun f => ! dictContains c9Session.fields f)
        = ([] : List String) ∧
      (∃ stored : SessionData,
        (finalize_session c9Log "s9" "20240102" "3").2
            = c9Log ++ [(c9Session.session_id, ⟨"SYSTEM", .sessionData stored⟩)] ∧
        stored.fields
            = (populate_template syllabusTemplate c9Session.fields c9Session.course_code
                c9Session.title).2 ∧
        dictLookup stored.fields "course_code" = some c9Session.course_code ∧
        dictLookup stored.fields "title" = some c9Session.title ∧
        ∀ o ∈ syllabusTemplate.optional_fields, dictContains c9Session.fields o = false →
          dictLookup stored.fields o = some ("[" ++ fieldTitle o ++ "]")) :=
  ⟨by decide, rfl, rfl, by decide,
    c9_finalize_persists_mutated_fields c9Log "s9" "20240102" "3" c9Session
      syllabusTemplate (by decide) rfl rfl (by decide)⟩

/-! ### Claim C10 — template registry invariant -/

/-- C10: every registry template has disjoint required and optional field
lists, and every placeholder referenced by its skeleton is a required field,
an optional field, or one of the two reserved identity placeholders
`course_code` and `title`. -/
theorem c10_registry_invariant (doc_type : String) (t : Template)
    (h : get_template doc_type = some t) :
    (∀ f ∈ t.required_fields, f ∉ t.optional_fields) ∧
      ∀ p ∈ placeholdersOf t.skeleton,
        p ∈ t.required_fields ∨ p ∈ t.optional_fields ∨
          p = "course_code" ∨ p = "title" := by
  rcases get_template_cases _ _ h with h' | h' | h' | h' | h' | h' <;> subst h' <;>
    exact ⟨by decide, by decide⟩

theorem c10_registry_invariant_witness :
    get_template "syllabus" = some syllabusTemplate ∧
      ((∀ f ∈ syllabusTemplate.required_fields, f ∉ syllabusTemplate.optional_fields) ∧
        ∀ p ∈ placeholdersOf syllabusTemplate.skeleton,
          p ∈ syllabusTemplate.required_fields ∨ p ∈ syllabusTemplate.optional_fields ∨
            p = "course_code" ∨ p = "title") :=
  ⟨rfl, c10_registry_invariant "syllabus" syllabusTemplate rfl⟩

end EchoInk
